import Mathlib

/-!
Shallow embedding of the resynchronization controller in
`ui/apps/dashboard/src/app/(organization-active)/(dashboard)/env/[environmentSlug]/apps/[externalID]/ResyncModal.tsx`.

The component keeps four pieces of React state (`overrideValue`,
`isURLOverridden`, `failure`, `isSyncing`), derives the effective URL by
reassigning `url` when the override is enabled, and runs `onSync` against the
`ResyncApp` GraphQL mutation. We embed the state as a record, `onSync`'s
settlement as a pure function of the mutation result, and the UI guards
(button/switch `disabled` props, conditional rendering) as boolean/list
functions, with an event-step relation tying them together.
-/

/-- Modelled from the spec: the shape of `CodedError` imported from
`@/codedError`, which is not part of the listed source. Per the spec it is
a record of a `code` string, an optional opaque `data` payload (embedded
here as an optional string) and an optional `message` string. -/
structure CodedError where
  code : String
  data : Option String := none
  message : Option String := none
  deriving Repr, DecidableEq

/-- The `app` object of a successful `resyncApp` payload: carries the id. -/
structure AppRef where
  id : String
  deriving Repr, DecidableEq

/-- The `resyncApp` field of the mutation response body: either an `app`
object on success or an `error` coded-error object on rejection. -/
structure ResyncPayload where
  app : Option AppRef
  error : Option CodedError
  deriving Repr, DecidableEq

/-- The `data` part of the mutation response. -/
structure ResyncData where
  resyncApp : ResyncPayload
  deriving Repr, DecidableEq

/-- The urql mutation result as observed by `onSync`: an optional
transport-level `error` (embedded as an opaque string payload) and an
optional `data` body. -/
structure UrqlResult where
  error : Option String
  data : Option ResyncData
  deriving Repr, DecidableEq

/-- The variables passed to the `ResyncApp` mutation. The GraphQL variable
`$appURL: String` is nullable, hence `Option String` here. -/
structure ResyncRequest where
  appExternalID : String
  appURL : Option String
  envID : String
  deriving Repr, DecidableEq

/-- The React state of `ResyncModal`: `useState(url)` for the override
buffer, `useState(false)` for the override flag, `useState<CodedError>()`
for the last failure, `useState(false)` for the in-flight flag. -/
structure ModalState where
  overrideValue : String
  isURLOverridden : Bool
  failure : Option CodedError
  isSyncing : Bool
  deriving Repr, DecidableEq

/-- Initial state when the modal component mounts, seeded from the `url` prop. -/
def initState (url : String) : ModalState :=
  { overrideValue := url, isURLOverridden := false, failure := none, isSyncing := false }

/-- The effective URL: the component reassigns `url = overrideValue` when
`isURLOverridden` holds, otherwise keeps the `url` prop. -/
def effectiveURL (url : String) (s : ModalState) : String :=
  if s.isURLOverridden then s.overrideValue else url

/-- The sentinel failure set in the `catch` branch of `onSync`:
`setFailure(\x7b code: 'unknown' \x7d)`. -/
def unknownError : CodedError :=
  { code := "unknown" }

/-- Observable outcome of one settlement of `onSync`: the failure stored by
`setFailure`, whether `onClose` was invoked, whether the success toast was
emitted, and the final value of `isSyncing` (the `finally` block). -/
structure SyncOutcome where
  failure : Option CodedError
  closeSignal : Bool
  toastSuccess : Bool
  isSyncing : Bool
  deriving Repr, DecidableEq

/-- Settlement logic of `onSync` as a function of the mutation result:
`res.error` present throws into the catch branch; absent `res.data` throws
`new Error('No API response data')` into the catch branch; an application
error is stored verbatim with an early return; otherwise the failure is
cleared, the success toast fires and `onClose()` is signalled. The `finally`
block clears `isSyncing` on every path. -/
def onSyncSettle (res : UrqlResult) : SyncOutcome :=
  if res.error.isSome then
    { failure := some unknownError, closeSignal := false, toastSuccess := false, isSyncing := false }
  else
    match res.data with
    | none =>
        { failure := some unknownError, closeSignal := false, toastSuccess := false, isSyncing := false }
    | some d =>
        match d.resyncApp.error with
        | some e =>
            { failure := some e, closeSignal := false, toastSuccess := false, isSyncing := false }
        | none =>
            { failure := none, closeSignal := true, toastSuccess := true, isSyncing := false }

/-- A result is successful exactly when there is no transport error, a data
body is present, and the body carries no application error — the branch of
`onSync` that reaches `toast.success` and `onClose`. -/
def isSuccessResponse (res : UrqlResult) : Bool :=
  res.error.isNone &&
    (match res.data with
     | none => false
     | some d => d.resyncApp.error.isNone)

/-- Modelled from the spec: the persistent/streaming connection-method
constant `methodTypes.Connect`, imported from the components package, which
is not part of the listed source. -/
def methodTypesConnect : String := "connect"

/-- The component's `isConnect` flag: `appMethod === methodTypes.Connect`,
where the `appMethod` prop is optional. -/
def isConnectMethod (appMethod : Option String) : Bool :=
  appMethod == some methodTypesConnect

/-- The `disabled` prop of the confirm button:
`isSyncing || (!isURLOverridden && isConnect)`. -/
def resyncButtonDisabled (isSyncing isURLOverridden isConnect : Bool) : Bool :=
  isSyncing || (!isURLOverridden && isConnect)

/-- The `disabled` prop of the override switch: `isSyncing`. -/
def overrideSwitchDisabled (isSyncing : Bool) : Bool :=
  isSyncing

/-- Elements conditionally rendered inside the modal body. -/
inductive BodyElement where
  | vercelAlert
  | connectInfoText
  | resyncInfoText
  | urlInput (value : String) (readOnly : Bool)
  | overrideToggle (checked disabled : Bool)
  | overrideWarning
  | syncFailureDetail (e : CodedError)
  deriving Repr, DecidableEq

/-- The modal body render, following the JSX conditionals: the Vercel alert
when `platform === 'vercel' && !failure`; one of the two info paragraphs by
`isConnect`; the URL input showing the effective URL, read-only when not
overridden; the override switch; the warning note when
`isURLOverridden && !failure`; and `SyncFailure` when `failure && !isSyncing`. -/
def modalBody (platform : Option String) (url : String) (isConnect : Bool)
    (s : ModalState) : List BodyElement :=
  (if platform == some "vercel" && s.failure.isNone then [BodyElement.vercelAlert] else [])
    ++ (if isConnect then [BodyElement.connectInfoText] else [BodyElement.resyncInfoText])
    ++ [BodyElement.urlInput (effectiveURL url s) (!s.isURLOverridden)]
    ++ [BodyElement.overrideToggle s.isURLOverridden (overrideSwitchDisabled s.isSyncing)]
    ++ (if s.isURLOverridden && s.failure.isNone then [BodyElement.overrideWarning] else [])
    ++ (match s.failure with
        | some e => if s.isSyncing then [] else [BodyElement.syncFailureDetail e]
        | none => [])

/-- UI events delivered to the component: typing in the URL input, flipping
the override switch, clicking the confirm button, and the in-flight mutation
settling with a result. -/
inductive Event where
  | inputChange (text : String)
  | toggleOverride
  | clickResync
  | syncResponse (res : UrqlResult)
  deriving Repr, DecidableEq

/-- Effects emitted by one event step: a dispatched mutation request, a
close signal (`onClose`), a success toast. -/
structure Emitted where
  request : Option ResyncRequest
  closeSignal : Bool
  toastSuccess : Bool
  deriving Repr, DecidableEq

/-- No emitted effects. -/
def noEffects : Emitted :=
  { request := none, closeSignal := false, toastSuccess := false }

/-- The mutation variables built by `onSync`: the `appExternalID` prop, the
(possibly reassigned) `url` as `appURL`, and `env.id`. -/
def buildRequest (appExternalID envID url : String) (s : ModalState) : ResyncRequest :=
  { appExternalID := appExternalID, appURL := some (effectiveURL url s), envID := envID }

/-- One event step of the component. A change event on a read-only input
does not fire; a disabled switch ignores clicks; a disabled button ignores
clicks; clicking the enabled confirm button runs the first half of `onSync`
(`setIsSyncing(true)` and the request dispatch); the response settlement
applies `onSyncSettle`. -/
def step (url appExternalID envID : String) (isConnect : Bool) (s : ModalState) :
    Event → ModalState × Emitted
  | Event.inputChange t =>
      if s.isURLOverridden then ({ s with overrideValue := t }, noEffects)
      else (s, noEffects)
  | Event.toggleOverride =>
      if overrideSwitchDisabled s.isSyncing then (s, noEffects)
      else ({ s with isURLOverridden := !s.isURLOverridden }, noEffects)
  | Event.clickResync =>
      if resyncButtonDisabled s.isSyncing s.isURLOverridden isConnect then (s, noEffects)
      else ({ s with isSyncing := true },
            { request := some (buildRequest appExternalID envID url s),
              closeSignal := false, toastSuccess := false })
  | Event.syncResponse res =>
      let o := onSyncSettle res
      ({ s with failure := o.failure, isSyncing := o.isSyncing },
       { request := none, closeSignal := o.closeSignal, toastSuccess := o.toastSuccess })

/-- Run a sequence of events from the initial state. -/
def run (url appExternalID envID : String) (isConnect : Bool) (evs : List Event) : ModalState :=
  evs.foldl (fun s e => (step url appExternalID envID isConnect s e).1) (initState url)

/-! Helper lemma shared by membership arguments. -/

/-- Membership in a conditional singleton list forces equality with the element. -/
theorem mem_of_mem_ite_singleton {α : Type} (c : Prop) [Decidable c] (x y : α)
    (h : x ∈ (if c then [y] else [])) : x = y := by
  split at h
  · simpa using h
  · simp at h

/-- C1 counterexample: with the override disabled (the initial state), the
confirm click dispatches a request whose `appURL` is the original URL as a
non-null string, not `null`. -/
theorem resync_request_url_not_null_counterexample :
    ((step "https://a.com" "my-app" "env-1" false (initState "https://a.com")
          Event.clickResync).2.request.map ResyncRequest.appURL) ≠ some none
      ∧ ((step "https://a.com" "my-app" "env-1" false (initState "https://a.com")
          Event.clickResync).2.request.map ResyncRequest.appURL) =
        some (some "https://a.com") := by
  decide

/-- C1 (amended): every request dispatched by the confirm click carries a
non-null `appURL`; it equals the original URL when the override is disabled
and the user-entered override value when the override is enabled. -/
theorem resync_request_url_amended (url appExternalID envID : String) (isConnect : Bool)
    (s : ModalState) (req : ResyncRequest)
    (h : (step url appExternalID envID isConnect s Event.clickResync).2.request = some req) :
    req.appURL ≠ none
      ∧ req.appURL = some (if s.isURLOverridden then s.overrideValue else url) := by
  cases hb : resyncButtonDisabled s.isSyncing s.isURLOverridden isConnect
  · simp [step, hb, buildRequest, effectiveURL] at h
    subst h
    simp
  · simp [step, hb, noEffects] at h

/-- C1 witness for the amended theorem at a concrete overridden state. -/
theorem resync_request_url_amended_witness :
    ({ appExternalID := "my-app", appURL := some "https://b.com/x",
       envID := "env-1" } : ResyncRequest).appURL ≠ none
      ∧ ({ appExternalID := "my-app", appURL := some "https://b.com/x",
           envID := "env-1" } : ResyncRequest).appURL =
        some (if true then "https://b.com/x" else "https://a.com") :=
  resync_request_url_amended "https://a.com" "my-app" "env-1" false
    { overrideValue := "https://b.com/x", isURLOverridden := true, failure := none,
      isSyncing := false }
    { appExternalID := "my-app", appURL := some "https://b.com/x", envID := "env-1" }
    (by decide)

/-- C2: in every state reachable by any sequence of override-toggle and
input-change (and other) events, the effective URL equals the override
buffer when overriding is enabled and the original URL when it is disabled. -/
theorem effective_url_invariant (url appExternalID envID : String) (isConnect : Bool)
    (evs : List Event) :
    ((run url appExternalID envID isConnect evs).isURLOverridden = true →
        effectiveURL url (run url appExternalID envID isConnect evs) =
          (run url appExternalID envID isConnect evs).overrideValue)
      ∧ ((run url appExternalID envID isConnect evs).isURLOverridden = false →
        effectiveURL url (run url appExternalID envID isConnect evs) = url) := by
  constructor <;> intro h <;> simp [effectiveURL, h]

/-- C2 witness: after enabling the override and typing a new URL, the
effective URL is the override buffer. -/
theorem effective_url_invariant_witness :
    effectiveURL "https://a.com"
        (run "https://a.com" "my-app" "env-1" false
          [Event.toggleOverride, Event.inputChange "https://b.com/x"]) =
      (run "https://a.com" "my-app" "env-1" false
          [Event.toggleOverride, Event.inputChange "https://b.com/x"]).overrideValue :=
  (effective_url_invariant "https://a.com" "my-app" "env-1" false
      [Event.toggleOverride, Event.inputChange "https://b.com/x"]).1 (by decide)

/-- C3: a transport-level failure (an error on the result, or a result with
no data) settles with the sentinel coded error and no close signal. -/
theorem transport_failure_sets_unknown (res : UrqlResult)
    (h : res.error.isSome = true ∨ res.data = none) :
    (onSyncSettle res).failure = some unknownError
      ∧ (onSyncSettle res).closeSignal = false := by
  rcases res with ⟨err, dat⟩
  rcases h with h | h
  · cases err
    · simp at h
    · simp [onSyncSettle]
  · cases err <;> simp_all [onSyncSettle]

/-- C3 witness at a concrete transport error. -/
theorem transport_failure_sets_unknown_witness :
    (onSyncSettle { error := some "network error", data := none }).failure = some unknownError
      ∧ (onSyncSettle { error := some "network error", data := none }).closeSignal = false :=
  transport_failure_sets_unknown { error := some "network error", data := none }
    (Or.inl (by decide))

/-- C4: a successful settlement clears the failure, emits the success toast
and the close signal; and for every result, exactly one of a non-empty
stored failure or a close signal is produced. -/
theorem success_closes_and_exclusive (res : UrqlResult) :
    (isSuccessResponse res = true →
        (onSyncSettle res).failure = none ∧ (onSyncSettle res).toastSuccess = true
          ∧ (onSyncSettle res).closeSignal = true)
      ∧ (onSyncSettle res).failure.isSome = !(onSyncSettle res).closeSignal := by
  rcases res with ⟨err, dat⟩
  cases err
  · cases dat
    · simp [onSyncSettle, isSuccessResponse]
    · next d =>
        cases he : d.resyncApp.error <;>
          simp [onSyncSettle, isSuccessResponse, he]
  · simp [onSyncSettle, isSuccessResponse]

/-- C4 witness at a concrete successful response. -/
theorem success_closes_and_exclusive_witness :
    (onSyncSettle
          { error := none,
            data := some { resyncApp := { app := some { id := "1" }, error := none } } }).failure =
        none
      ∧ (onSyncSettle
          { error := none,
            data := some { resyncApp := { app := some { id := "1" }, error := none } } }).closeSignal =
        true :=
  ⟨((success_closes_and_exclusive
      { error := none,
        data := some { resyncApp := { app := some { id := "1" }, error := none } } }).1
      (by decide)).1,
   ((success_closes_and_exclusive
      { error := none,
        data := some { resyncApp := { app := some { id := "1" }, error := none } } }).1
      (by decide)).2.2⟩

/-- C5: an application-level error in the response body is stored verbatim
as the failure, no close signal is emitted, and the in-flight flag is
cleared. -/
theorem application_error_stored_verbatim (res : UrqlResult) (d : ResyncData) (e : CodedError)
    (he : res.error = none) (hd : res.data = some d) (hr : d.resyncApp.error = some e) :
    (onSyncSettle res).failure = some e ∧ (onSyncSettle res).closeSignal = false
      ∧ (onSyncSettle res).isSyncing = false := by
  simp [onSyncSettle, he, hd, hr]

/-- C5 witness at the concrete scenario-B response. -/
theorem application_error_stored_verbatim_witness :
    (onSyncSettle
          { error := none,
            data := some { resyncApp :=
              { app := none,
                error := some { code := "invalid_url", data := none,
                                message := some "bad host" } } } }).failure =
        some { code := "invalid_url", data := none, message := some "bad host" }
      ∧ (onSyncSettle
          { error := none,
            data := some { resyncApp :=
              { app := none,
                error := some { code := "invalid_url", data := none,
                                message := some "bad host" } } } }).closeSignal = false
      ∧ (onSyncSettle
          { error := none,
            data := some { resyncApp :=
              { app := none,
                error := some { code := "invalid_url", data := none,
                                message := some "bad host" } } } }).isSyncing = false :=
  application_error_stored_verbatim
    { error := none,
      data := some { resyncApp :=
        { app := none,
          error := some { code := "invalid_url", data := none, message := some "bad host" } } } }
    { resyncApp :=
        { app := none,
          error := some { code := "invalid_url", data := none, message := some "bad host" } } }
    { code := "invalid_url", data := none, message := some "bad host" }
    rfl rfl rfl

/-- C6: on every settlement of the sync call — success, application error,
or transport failure — the in-flight flag ends up false. -/
theorem syncing_cleared_on_every_exit (res : UrqlResult) :
    (onSyncSettle res).isSyncing = false := by
  rcases res with ⟨err, dat⟩
  cases err
  · cases dat
    · simp [onSyncSettle]
    · next d =>
        cases he : d.resyncApp.error <;> simp [onSyncSettle, he]
  · simp [onSyncSettle]

/-- C7: when the application's method is the connect method and the
override is disabled, the confirm button is disabled regardless of the
in-flight flag. -/
theorem connect_gating_disables_confirm (appMethod : Option String) (s : ModalState)
    (hc : isConnectMethod appMethod = true) (ho : s.isURLOverridden = false) :
    resyncButtonDisabled s.isSyncing s.isURLOverridden (isConnectMethod appMethod) = true := by
  simp [resyncButtonDisabled, hc, ho]

/-- C7 witness at a concrete connect-method state that is not syncing. -/
theorem connect_gating_disables_confirm_witness :
    resyncButtonDisabled false false (isConnectMethod (some "connect")) = true :=
  connect_gating_disables_confirm (some "connect")
    { overrideValue := "https://a.com", isURLOverridden := false, failure := none,
      isSyncing := false }
    (by decide) rfl

/-- C8: while the in-flight flag is set the confirm button is disabled, and
a further confirm click changes nothing and dispatches no second request. -/
theorem no_second_request_while_syncing (url appExternalID envID : String) (isConnect : Bool)
    (s : ModalState) (h : s.isSyncing = true) :
    resyncButtonDisabled s.isSyncing s.isURLOverridden isConnect = true
      ∧ step url appExternalID envID isConnect s Event.clickResync = (s, noEffects) := by
  have hd : resyncButtonDisabled s.isSyncing s.isURLOverridden isConnect = true := by
    simp [resyncButtonDisabled, h]
  exact ⟨hd, by simp [step, hd]⟩

/-- C8 witness at a concrete in-flight state. -/
theorem no_second_request_while_syncing_witness :
    resyncButtonDisabled
        ({ overrideValue := "https://a.com", isURLOverridden := false, failure := none,
           isSyncing := true } : ModalState).isSyncing
        ({ overrideValue := "https://a.com", isURLOverridden := false, failure := none,
           isSyncing := true } : ModalState).isURLOverridden false = true
      ∧ step "https://a.com" "my-app" "env-1" false
          { overrideValue := "https://a.com", isURLOverridden := false, failure := none,
            isSyncing := true } Event.clickResync =
        ({ overrideValue := "https://a.com", isURLOverridden := false, failure := none,
           isSyncing := true }, noEffects) :=
  no_second_request_while_syncing "https://a.com" "my-app" "env-1" false
    { overrideValue := "https://a.com", isURLOverridden := false, failure := none,
      isSyncing := true } rfl

/-- C9: the failure-detail renderer appears in the modal body only when a
coded failure is stored and the in-flight flag is false; in particular it is
never rendered while syncing. -/
theorem failure_display_gated (platform : Option String) (url : String) (isConnect : Bool)
    (s : ModalState) (e : CodedError)
    (h : BodyElement.syncFailureDetail e ∈ modalBody platform url isConnect s) :
    s.failure = some e ∧ s.isSyncing = false := by
  rcases hf : s.failure with _ | e0 <;> cases hs : s.isSyncing <;>
    cases hp : (platform == some "vercel") <;> cases isConnect <;>
    cases ho : s.isURLOverridden <;>
    simp [modalBody, overrideSwitchDisabled, hf, hs, hp, ho] at h <;>
    simp [hf, hs, h]

/-- C9 witness: the failure detail rendered at a concrete failed, idle state. -/
theorem failure_display_gated_witness :
    ({ overrideValue := "https://a.com", isURLOverridden := false,
       failure := some unknownError, isSyncing := false } : ModalState).failure =
        some unknownError
      ∧ ({ overrideValue := "https://a.com", isURLOverridden := false,
           failure := some unknownError, isSyncing := false } : ModalState).isSyncing = false :=
  failure_display_gated none "https://a.com" false
    { overrideValue := "https://a.com", isURLOverridden := false,
      failure := some unknownError, isSyncing := false }
    unknownError (by decide)

/-- C10: while the in-flight flag is set the override switch is disabled,
so a toggle event leaves the state — in particular the override flag —
unchanged. -/
theorem override_locked_while_syncing (url appExternalID envID : String) (isConnect : Bool)
    (s : ModalState) (h : s.isSyncing = true) :
    overrideSwitchDisabled s.isSyncing = true
      ∧ step url appExternalID envID isConnect s Event.toggleOverride = (s, noEffects)
      ∧ (step url appExternalID envID isConnect s Event.toggleOverride).1.isURLOverridden =
        s.isURLOverridden := by
  have hd : overrideSwitchDisabled s.isSyncing = true := by
    simp [overrideSwitchDisabled, h]
  refine ⟨hd, ?_, ?_⟩ <;> simp [step, hd]

/-- C10 witness at a concrete in-flight state. -/
theorem override_locked_while_syncing_witness :
    overrideSwitchDisabled
        ({ overrideValue := "https://a.com", isURLOverridden := true, failure := none,
           isSyncing := true } : ModalState).isSyncing = true
      ∧ step "https://a.com" "my-app" "env-1" false
          { overrideValue := "https://a.com", isURLOverridden := true, failure := none,
            isSyncing := true } Event.toggleOverride =
        ({ overrideValue := "https://a.com", isURLOverridden := true, failure := none,
           isSyncing := true }, noEffects)
      ∧ (step "https://a.com" "my-app" "env-1" false
          { overrideValue := "https://a.com", isURLOverridden := true, failure := none,
            isSyncing := true } Event.toggleOverride).1.isURLOverridden =
        ({ overrideValue := "https://a.com", isURLOverridden := true, failure := none,
           isSyncing := true } : ModalState).isURLOverridden :=
  override_locked_while_syncing "https://a.com" "my-app" "env-1" false
    { overrideValue := "https://a.com", isURLOverridden := true, failure := none,
      isSyncing := true } rfl
